import Mathlib

/-
Verification of the rental-order service in src/api/server.js.

Shallow embedding conventions:
- JavaScript numbers are modelled as exact rationals; the Number(v) coercion
  is modelled by toNumber below, with NaN and the infinities made explicit.
- Calendar dates are modelled as integer day numbers (days since 1970-01-01),
  so that the dayjs whole-day difference end.diff(start, "day") is the
  integer subtraction end - start.
- The SQL store is modelled as in-memory lists of rows; a committed
  transaction is modelled by the pure function from the pre-state to the
  post-state, so failed requests return the store unchanged.
- The PDF document is modelled as the list of layout events the rendering
  loop emits, together with the vertical cursor and the running grand total.
-/

namespace Srv

/-- Result of the JavaScript Number(v) coercion: a finite number, NaN, or an
infinity. -/
inductive JSNum where
  | finite (q : ℚ)
  | nan
  | posInf
  | negInf
deriving DecidableEq

/-- A JSON-like JavaScript value as it may appear in a request body or in a
row read back from the store. The str constructor carries the result of the
numeric parse that Number performs on that string (none when the string does
not parse as a number), which keeps the embedding executable without
re-implementing the ECMAScript string grammar. -/
inductive JSVal where
  | num (q : ℚ)
  | nan
  | posInf
  | negInf
  | str (numParse : Option ℚ)
  | null
  | undef
  | bool (b : Bool)
deriving DecidableEq

/-- The ECMAScript Number(v) coercion on the modelled values: numbers map to
themselves, numeric strings to their parse, null and false to 0, true to 1,
and undefined together with non-numeric strings to NaN. -/
def toNumber : JSVal → JSNum
  | JSVal.num q => JSNum.finite q
  | JSVal.nan => JSNum.nan
  | JSVal.posInf => JSNum.posInf
  | JSVal.negInf => JSNum.negInf
  | JSVal.str (some q) => JSNum.finite q
  | JSVal.str none => JSNum.nan
  | JSVal.null => JSNum.finite 0
  | JSVal.undef => JSNum.nan
  | JSVal.bool true => JSNum.finite 1
  | JSVal.bool false => JSNum.finite 0

/-- Number.isFinite on a coerced value. -/
def JSNum.isFiniteB : JSNum → Bool
  | JSNum.finite _ => true
  | _ => false

/-- safeNumber from server.js lines 25-28: coerce with Number and replace any
non-finite result by 0. -/
def safeNumber (v : JSVal) : ℚ :=
  match toNumber v with
  | JSNum.finite q => q
  | _ => 0

/-- The per-line amount computed by every write path (server.js lines 72-74,
141-144, 297-300): coerced price times coerced quantity. -/
def lineAmount (price quantity : JSVal) : ℚ :=
  safeNumber price * safeNumber quantity

/-- Day count computed at render time (server.js lines 396-403): 1 when either
date is absent, otherwise the inclusive difference end - start + 1, floored to
1 when that is not positive. -/
def rentalDays (rent_start rent_end : Option ℤ) : ℤ :=
  match rent_start, rent_end with
  | some s, some e =>
    let diff := e - s + 1
    if diff > 0 then diff else 1
  | _, _ => 1

/-- JavaScript a || b specialised to outputs of safeNumber: such a number is
falsy exactly when it equals 0 (safeNumber never returns NaN), in which case
the right operand is used. Models line 434 of server.js. -/
def jsOrNum (a b : ℚ) : ℚ :=
  if a = 0 then b else a

/-- Number.prototype.toFixed(2) for the non-negative amounts the invoice
prints: the integer part, a dot, and exactly two fraction digits. -/
def toFixed2 (q : ℚ) : String :=
  let n : ℤ := ⌊q * 100 + 1 / 2⌋
  let ip : ℤ := n / 100
  let f : ℕ := (n % 100).toNat
  toString ip ++ "." ++ String.mk [Char.ofNat (48 + f / 10), Char.ofNat (48 + f % 10)]

/-- A customers row. -/
structure Customer where
  id : ℕ
  name : String
  phone : String
  alt_phone : Option String
  address : String
  rent_status : String
deriving DecidableEq

/-- An orders row. The order_date column is always set by the write paths, so
it is total; the rental dates may be NULL. -/
structure Order where
  id : ℕ
  invoice_no : String
  customer_id : ℕ
  order_date : ℤ
  rent_start : Option ℤ
  rent_end : Option ℤ
  total : ℚ
deriving DecidableEq

/-- An order_items row (the serial item id is immaterial to every claim and is
omitted; row order in the list models insertion order). -/
structure OrderItem where
  order_id : ℕ
  product : String
  price : ℚ
  quantity : ℚ
  line_total : ℚ
deriving DecidableEq

/-- The relational store, with the next values of the two serial id
sequences. -/
structure DB where
  customers : List Customer
  orders : List Order
  order_items : List OrderItem
  nextCustomerId : ℕ
  nextOrderId : ℕ
deriving DecidableEq

/-- One item of a request body: product label plus raw price and quantity
values, still uncoerced. -/
structure ReqItem where
  product : String
  price : JSVal
  quantity : JSVal
deriving DecidableEq

/-- Request body of POST /api/new-customer. The required text fields use the
empty string for the JavaScript-falsy case tested by the validation. -/
structure NewCustomerReq where
  name : String
  phone : String
  address : String
  alt_phone : Option String
  rent_start : Option ℤ
  rent_end : Option ℤ
  order_date : Option ℤ
  items : List ReqItem
deriving DecidableEq

/-- Request body of POST /api/generate-bill (no order_date field: that path
always uses the current date). -/
structure GenerateBillReq where
  name : String
  phone : String
  address : String
  alt_phone : Option String
  rent_start : Option ℤ
  rent_end : Option ℤ
  items : List ReqItem
deriving DecidableEq

/-- Request body of POST /api/update-order; orderId 0 models the falsy case of
the missing-orderId validation. -/
structure UpdateOrderReq where
  orderId : ℕ
  order_date : Option ℤ
  rent_start : Option ℤ
  rent_end : Option ℤ
  items : List ReqItem
deriving DecidableEq

/-- Uniform success-or-failure response shape of the write endpoints. -/
inductive Res (α : Type) where
  | ok (val : α)
  | err (msg : String)
deriving DecidableEq

/-- The alt_phone || null pattern: an absent or empty alternate phone is
stored as NULL. -/
def orElseNull (o : Option String) : Option String :=
  match o with
  | some s => if s = "" then none else some s
  | none => none

/-- Rows inserted into order_items for one request (lines 77-81, 147-151,
303-307 of server.js): price and quantity are stored coerced and line_total is
their product. -/
def insertItems (oid : ℕ) (items : List ReqItem) : List OrderItem :=
  items.map (fun it =>
    OrderItem.mk oid it.product (safeNumber it.price) (safeNumber it.quantity)
      (lineAmount it.price it.quantity))

/-- The running total accumulated by the insert loop. -/
def reqTotal (items : List ReqItem) : ℚ :=
  items.foldl (fun acc it => acc + lineAmount it.price it.quantity) 0

/-- SELECT id FROM customers WHERE phone = $1, taking the first row. -/
def findByPhone (db : DB) (phone : String) : Option Customer :=
  db.customers.find? (fun c => decide (c.phone = phone))

/-- SELECT from orders by primary key. -/
def findOrder (db : DB) (oid : ℕ) : Option Order :=
  db.orders.find? (fun o => decide (o.id = oid))

/-- The order_items rows belonging to one order. -/
def itemsOf (db : DB) (oid : ℕ) : List OrderItem :=
  db.order_items.filter (fun it => decide (it.order_id = oid))

/-- Sum of the stored line_total values of a list of item rows. -/
def lineSum (l : List OrderItem) : ℚ :=
  (l.map (fun it => it.line_total)).sum

/-- POST /api/new-customer (server.js lines 34-95): validate, insert a brand
new customer unconditionally, insert the order and its items, and persist the
accumulated total. The provisional total 0 written before the item loop is
collapsed into the committed row, since the whole unit runs in one
transaction. -/
def newCustomer (req : NewCustomerReq) (today : ℤ) (uuid : String) (db : DB) :
    Res (ℕ × ℕ) × DB :=
  if req.name = "" ∨ req.phone = "" ∨ req.address = "" then
    (Res.err "Missing required fields (name, phone, address)", db)
  else if req.items = [] then
    (Res.err "No product items found", db)
  else
    let customerId := db.nextCustomerId
    let cust : Customer :=
      Customer.mk customerId req.name req.phone (orElseNull req.alt_phone) req.address "ACTIVE"
    let finalOrderDate := req.order_date.getD today
    let orderId := db.nextOrderId
    let total := reqTotal req.items
    let ord : Order :=
      Order.mk orderId uuid customerId finalOrderDate req.rent_start req.rent_end total
    (Res.ok (customerId, orderId),
      DB.mk (db.customers ++ [cust]) (db.orders ++ [ord])
        (db.order_items ++ insertItems orderId req.items) (customerId + 1) (orderId + 1))

/-- POST /api/generate-bill (server.js lines 100-164): validate, find an
existing customer by exact phone match and update its name, alternate phone
and address in place, or insert a new customer when no row matches; then
insert the order (dated today) and its items and persist the total. -/
def generateBill (req : GenerateBillReq) (today : ℤ) (uuid : String) (db : DB) :
    Res (ℕ × String) × DB :=
  if req.name = "" ∨ req.phone = "" ∨ req.address = "" then
    (Res.err "Missing required fields (name, phone, address)", db)
  else if req.items = [] then
    (Res.err "No product items found", db)
  else
    let resolved :=
      match findByPhone db req.phone with
      | some c =>
        (db.customers.map (fun x : Customer =>
          if x.id = c.id then
            Customer.mk x.id req.name x.phone (orElseNull req.alt_phone) req.address x.rent_status
          else x),
         db.nextCustomerId)
      | none =>
        (db.customers ++
          [Customer.mk db.nextCustomerId req.name req.phone (orElseNull req.alt_phone)
            req.address "ACTIVE"],
         db.nextCustomerId + 1)
    let orderId := db.nextOrderId
    let total := reqTotal req.items
    let customerId :=
      match findByPhone db req.phone with
      | some c => c.id
      | none => db.nextCustomerId
    let ord : Order :=
      Order.mk orderId uuid customerId today req.rent_start req.rent_end total
    (Res.ok (orderId, uuid),
      DB.mk resolved.1 (db.orders ++ [ord])
        (db.order_items ++ insertItems orderId req.items) resolved.2 (orderId + 1))

/-- COALESCE for the NOT NULL order_date column under the date || null
parameter passing of line 313. -/
def coalesceDate (x : Option ℤ) (old : ℤ) : ℤ :=
  match x with
  | some d => d
  | none => old

/-- COALESCE for the nullable rental date columns. -/
def coalesceOpt (x : Option ℤ) (old : Option ℤ) : Option ℤ :=
  match x with
  | some d => some d
  | none => old

/-- The UPDATE of line 311-314 applied to one orders row: only the row with the
requested id is rewritten, its total unconditionally and each date only when
supplied. -/
def applyOrderPatch (req : UpdateOrderReq) (total : ℚ) (o : Order) : Order :=
  if o.id = req.orderId then
    Order.mk o.id o.invoice_no o.customer_id (coalesceDate req.order_date o.order_date)
      (coalesceOpt req.rent_start o.rent_start) (coalesceOpt req.rent_end o.rent_end) total
  else o

/-- POST /api/update-order (server.js lines 276-325): validate orderId and
items, check the order exists, delete its items, insert the new ones, and
update total and the supplied dates in one transaction. -/
def updateOrder (req : UpdateOrderReq) (db : DB) : Res ℚ × DB :=
  if req.orderId = 0 then (Res.err "Missing orderId", db)
  else if req.items = [] then (Res.err "No items provided", db)
  else
    match findOrder db req.orderId with
    | none => (Res.err "Order not found", db)
    | some _ =>
      let remaining := db.order_items.filter (fun it => decide (¬ it.order_id = req.orderId))
      let total := reqTotal req.items
      (Res.ok total,
        DB.mk db.customers (db.orders.map (applyOrderPatch req total))
          (remaining ++ insertItems req.orderId req.items) db.nextCustomerId db.nextOrderId)

/-- An order_items row as the invoice query reads it back: raw values to which
the rendering loop re-applies safeNumber. -/
structure RawItem where
  product : String
  price : JSVal
  quantity : JSVal
  line_total : JSVal
deriving DecidableEq

/-- A stored row read back through the driver as numeric values. -/
def storedToRaw (it : OrderItem) : RawItem :=
  RawItem.mk it.product (JSVal.num it.price) (JSVal.num it.quantity) (JSVal.num it.line_total)

/-- The amount printed for one row (server.js lines 432-434): the stored
line_total coerced, falling back to price times quantity when that coercion is
falsy, then multiplied by the day count. -/
def renderAmount (it : RawItem) (days : ℤ) : ℚ :=
  jsOrNum (safeNumber it.line_total) (safeNumber it.price * safeNumber it.quantity) * (days : ℚ)

/-- Height of an A4 page in PDF points as pdfkit reports doc.page.height. -/
def pageHeight : ℚ := 841.89

/-- The page margin passed to the PDFDocument constructor; the cursor resets to
it after a page break. -/
def topMargin : ℚ := 40

/-- Layout events emitted by the invoice rendering loop, with the vertical
position of the positioned events. -/
inductive REvent where
  | colHeader (y : ℚ)
  | addPage
  | rowMain (product : String) (price qty amount : ℚ) (y : ℚ)
  | rowBreak (price qty : ℚ) (days : ℤ) (y : ℚ)
  | summary (perDay : ℚ) (days : ℤ) (finalTotal : ℚ)
deriving DecidableEq

/-- The per-item rendering loop of server.js lines 431-511. Each iteration
coerces the row values, computes the amount, starts a new page with redrawn
column headers when fewer than 50 points remain above the 60-point bottom
zone, draws the four-field row line and its breakdown sub-line, and then draws
the price calculation summary sub-block; the cursor advances by 30 points for
the row and by 100 points for the summary block. Returns the events, the final
cursor and the accumulated grand total. -/
def renderLoop (days : ℤ) : List RawItem → ℚ → ℚ → List REvent × ℚ × ℚ
  | [], y, grand => ([], y, grand)
  | it :: rest, y, grand =>
    let price := safeNumber it.price
    let qty := safeNumber it.quantity
    let amount := renderAmount it days
    let y1 : ℚ := if y + 50 > pageHeight - 60 then topMargin + 25 else y
    let pageEvs : List REvent :=
      if y + 50 > pageHeight - 60 then [REvent.addPage, REvent.colHeader topMargin] else []
    let rowEvs : List REvent :=
      [REvent.rowMain it.product price qty amount y1,
       REvent.rowBreak price qty days (y1 + 10),
       REvent.summary (price * qty) days amount]
    let next := renderLoop days rest (y1 + 130) (grand + amount)
    (pageEvs ++ (rowEvs ++ next.1), next.2)

/-- The full item-table event stream: the initial column header drawn at
tableTop (line 416-425) followed by the loop started at tableTop + 25
(line 429). -/
def invoiceEvents (tableTop : ℚ) (items : List RawItem) (days : ℤ) : List REvent :=
  REvent.colHeader tableTop :: (renderLoop days items (tableTop + 25) 0).1

/-- The grand total accumulated by the loop and printed in the total box
(lines 430, 472, 524). -/
def renderGrand (tableTop : ℚ) (items : List RawItem) (days : ℤ) : ℚ :=
  (renderLoop days items (tableTop + 25) 0).2.2

/-- The price-calculation-summary blocks of an event stream, in order, each
with its per-day product total, day count and final total. -/
def summaryBlocks : List REvent → List (ℚ × ℤ × ℚ)
  | [] => []
  | REvent.summary p d t :: rest => (p, d, t) :: summaryBlocks rest
  | _ :: rest => summaryBlocks rest

/-- Checks that every summary block follows immediately after the breakdown
sub-line of a row and repeats the per-day product of that row. -/
def summaryAfterRow : List REvent → Bool
  | [] => true
  | REvent.rowBreak p q _ _ :: rest =>
    (match rest with
     | REvent.summary pd _ _ :: _ => decide (pd = p * q)
     | _ => false) && summaryAfterRow rest
  | _ :: rest => summaryAfterRow rest

/-- Checks that every page break is immediately followed by a redrawn column
header at the top margin. -/
def headersOk : List REvent → Bool
  | [] => true
  | REvent.addPage :: rest =>
    (match rest with
     | REvent.colHeader y :: _ => decide (y = topMargin)
     | _ => false) && headersOk rest
  | _ :: rest => headersOk rest

/-- Checks that every four-field row line is drawn with at least its 50-point
footprint left above the bottom zone and is immediately followed by its
breakdown sub-line 10 points below, with no page break between them. -/
def rowsOk : List REvent → Bool
  | [] => true
  | REvent.rowMain _ _ _ _ y :: rest =>
    (match rest with
     | REvent.rowBreak _ _ _ y2 :: _ => decide (y + 50 ≤ pageHeight - 60 ∧ y2 = y + 10)
     | _ => false) && rowsOk rest
  | _ :: rest => rowsOk rest

/-- The empty store with both serial sequences at 1. -/
def emptyDB : DB := DB.mk [] [] [] 1 1

/-- The item list of the end-to-end example in the spec. -/
def chairTableItems : List ReqItem :=
  [ReqItem.mk "Chair" (JSVal.num 50) (JSVal.num 4),
   ReqItem.mk "Table" (JSVal.num 200) (JSVal.num 1)]

/-- A concrete new-customer request carrying the end-to-end example, with the
rental period 2024-01-01 (day 19723) to 2024-01-03 (day 19725). -/
def chairTableReq : NewCustomerReq :=
  NewCustomerReq.mk "Asha" "9916067960" "Shimoga" none (some 19723) (some 19725) none
    chairTableItems

/-- The store after committing the example order. -/
def exampleDB : DB := (newCustomer chairTableReq 19700 "inv-1" emptyDB).2

/-- A concrete generate-bill request reusing the example phone number. -/
def billReqW : GenerateBillReq :=
  GenerateBillReq.mk "Asha" "9916067960" "Shimoga" none (some 19723) (some 19725)
    chairTableItems

/-- A concrete update-order request supplying only rent_end and one new
item. -/
def updReqW : UpdateOrderReq :=
  UpdateOrderReq.mk 1 none none (some 19800)
    [ReqItem.mk "Sofa" (JSVal.num 10) (JSVal.num 2)]

/-- C2: the render-time day count is 1 when either rental date is absent;
otherwise it is the whole-day difference plus 1, replaced by 1 when that value
is not positive; in particular it is 1 for an equal start and end date and 3
for 2024-01-01 (day 19723) through 2024-01-03 (day 19725). -/
theorem C2_rental_days :
    (∀ e : Option ℤ, rentalDays none e = 1) ∧
    (∀ s : Option ℤ, rentalDays s none = 1) ∧
    (∀ s e : ℤ, 0 < e - s + 1 → rentalDays (some s) (some e) = e - s + 1) ∧
    (∀ s e : ℤ, e - s + 1 ≤ 0 → rentalDays (some s) (some e) = 1) ∧
    rentalDays (some 19723) (some 19723) = 1 ∧
    rentalDays (some 19723) (some 19725) = 3 := by
  refine ⟨fun e => rfl, fun s => ?_, fun s e h => ?_, fun s e h => ?_, by decide, by decide⟩
  · cases s <;> rfl
  · simp only [rentalDays, gt_iff_lt]
    rw [if_pos h]
  · simp only [rentalDays, gt_iff_lt]
    rw [if_neg (by omega)]

/-- C2 witness: the day-count rules applied at the concrete dates 10 and
12. -/
theorem C2_witness :
    rentalDays (some 10) (some 12) = 12 - 10 + 1 ∧ rentalDays (some 12) (some 10) = 1 :=
  ⟨C2_rental_days.2.2.1 10 12 (by decide), C2_rental_days.2.2.2.1 12 10 (by decide)⟩

/-- C3 counterexample: safeNumber passes the negative finite number -5 through
unchanged, so the inputs of the line-amount computation are not coerced to
non-negative numbers as the claim states. -/
theorem C3_counterexample :
    safeNumber (JSVal.num (-5)) = -5 ∧ ¬ (0 ≤ safeNumber (JSVal.num (-5))) := by
  refine ⟨rfl, ?_⟩
  simp only [safeNumber, toNumber]
  norm_num

/-- C3 amended: each input of the line-amount computation is coerced to a
finite rational before multiplying, any non-numeric or non-finite input is
treated as zero, and the computation is a total function that never raises;
negative finite inputs, however, pass through unchanged instead of being
clamped to a non-negative value. -/
theorem C3_coercion_amended :
    (∀ p q : JSVal, lineAmount p q = safeNumber p * safeNumber q) ∧
    (∀ v : JSVal, (toNumber v).isFiniteB = false → safeNumber v = 0) ∧
    (∀ q : ℚ, safeNumber (JSVal.num q) = q) ∧
    safeNumber JSVal.nan = 0 ∧ safeNumber JSVal.posInf = 0 ∧ safeNumber JSVal.negInf = 0 ∧
    safeNumber JSVal.undef = 0 ∧ safeNumber (JSVal.str none) = 0 := by
  refine ⟨fun p q => rfl, fun v h => ?_, fun q => rfl, rfl, rfl, rfl, rfl, rfl⟩
  cases hv : toNumber v <;> simp [safeNumber, hv, JSNum.isFiniteB] at h ⊢

/-- C3 witness: the non-numeric input NaN is treated as zero. -/
theorem C3_witness : safeNumber JSVal.nan = 0 :=
  C3_coercion_amended.2.1 JSVal.nan rfl

/-- C10: the stored line_total is multiplied by the day count only when it
coerces to a nonzero finite number; when it is absent, non-numeric,
non-finite, or coerces to zero, the rendered amount falls back to coerced
price times coerced quantity times the day count. -/
theorem C10_amount_fallback :
    (∀ it : RawItem, ∀ d : ℤ, ∀ q : ℚ, q ≠ 0 → toNumber it.line_total = JSNum.finite q →
       renderAmount it d = q * d) ∧
    (∀ it : RawItem, ∀ d : ℤ,
       (toNumber it.line_total).isFiniteB = false ∨ toNumber it.line_total = JSNum.finite 0 →
       renderAmount it d = safeNumber it.price * safeNumber it.quantity * d) := by
  constructor
  · intro it d q hq hlt
    simp [renderAmount, jsOrNum, safeNumber, hlt, hq]
  · intro it d h
    have hz : safeNumber it.line_total = 0 := by
      rcases h with h | h
      · cases hv : toNumber it.line_total <;> simp [safeNumber, hv, JSNum.isFiniteB] at h ⊢
      · simp [safeNumber, h]
    simp [renderAmount, jsOrNum, hz]

/-- C10 witness: a row whose stored line_total is absent falls back to price
times quantity times the day count. -/
theorem C10_witness :
    renderAmount (RawItem.mk "x" (JSVal.num 5) (JSVal.num 2) JSVal.undef) 3 =
      safeNumber (JSVal.num 5) * safeNumber (JSVal.num 2) * ((3 : ℤ) : ℚ) :=
  C10_amount_fallback.2 (RawItem.mk "x" (JSVal.num 5) (JSVal.num 2) JSVal.undef) 3 (Or.inl rfl)

/-- The summary blocks of the rendering loop are exactly one block per item,
carrying the per-day product, day count and amount of that iteration. -/
theorem renderLoop_summaryBlocks (days : ℤ) :
    ∀ (items : List RawItem) (y grand : ℚ),
      summaryBlocks (renderLoop days items y grand).1 =
        items.map (fun it =>
          (safeNumber it.price * safeNumber it.quantity, days, renderAmount it days)) := by
  intro items
  induction items with
  | nil => intro y grand; rfl
  | cons it rest ih =>
    intro y grand
    by_cases h : y + 50 > pageHeight - 60 <;>
      simp [renderLoop, h, summaryBlocks, ih]

/-- Every summary block in the loop output directly follows the breakdown
sub-line of its row. -/
theorem renderLoop_summaryAfterRow (days : ℤ) :
    ∀ (items : List RawItem) (y grand : ℚ),
      summaryAfterRow (renderLoop days items y grand).1 = true := by
  intro items
  induction items with
  | nil => intro y grand; rfl
  | cons it rest ih =>
    intro y grand
    by_cases h : y + 50 > pageHeight - 60 <;>
      simp [renderLoop, h, summaryAfterRow, ih]

/-- Every page break in the loop output is immediately followed by a column
header redrawn at the top margin. -/
theorem renderLoop_headersOk (days : ℤ) :
    ∀ (items : List RawItem) (y grand : ℚ),
      headersOk (renderLoop days items y grand).1 = true := by
  intro items
  induction items with
  | nil => intro y grand; rfl
  | cons it rest ih =>
    intro y grand
    by_cases h : y + 50 > pageHeight - 60 <;>
      simp [renderLoop, h, headersOk, ih]

/-- Every row line in the loop output is drawn with its footprint inside the
page and its breakdown sub-line placed directly under it. -/
theorem renderLoop_rowsOk (days : ℤ) :
    ∀ (items : List RawItem) (y grand : ℚ),
      rowsOk (renderLoop days items y grand).1 = true := by
  intro items
  induction items with
  | nil => intro y grand; rfl
  | cons it rest ih =>
    intro y grand
    by_cases h : y + 50 > pageHeight - 60
    · have h65 : topMargin + 25 + 50 ≤ pageHeight - 60 := by norm_num [pageHeight, topMargin]
      simp [renderLoop, h, rowsOk, ih, h65]
    · have h2 : y + 50 ≤ pageHeight - 60 := not_lt.mp h
      simp [renderLoop, h, rowsOk, ih, h2]

/-- The grand total accumulated by the loop is the accumulator plus the sum of
the rendered amounts. -/
theorem renderLoop_grand (days : ℤ) :
    ∀ (items : List RawItem) (y grand : ℚ),
      (renderLoop days items y grand).2.2 =
        grand + (items.map (fun it => renderAmount it days)).sum := by
  intro items
  induction items with
  | nil => intro y grand; simp [renderLoop]
  | cons it rest ih =>
    intro y grand
    by_cases h : y + 50 > pageHeight - 60 <;>
      simp [renderLoop, h, ih, add_assoc]

/-- The committed store of the end-to-end example, computed in closed form. -/
theorem exampleDB_eq :
    exampleDB = DB.mk [Customer.mk 1 "Asha" "9916067960" none "Shimoga" "ACTIVE"]
      [Order.mk 1 "inv-1" 1 19700 (some 19723) (some 19725) 400]
      [OrderItem.mk 1 "Chair" 50 4 200, OrderItem.mk 1 "Table" 200 1 200] 2 2 := by
  simp only [exampleDB, newCustomer, chairTableReq, chairTableItems, emptyDB]
  rw [if_neg (by decide), if_neg (by decide)]
  norm_num [insertItems, reqTotal, lineAmount, safeNumber, toNumber, orElseNull]

/-- C8: the rendering loop emits exactly one price-calculation-summary block
per item, immediately after the row of that item, computed from that same
iteration price, quantity and amount, rather than one aggregate block after the
loop. -/
theorem C8_summary_per_item (tableTop : ℚ) (items : List RawItem) (days : ℤ) :
    summaryBlocks (invoiceEvents tableTop items days) =
      items.map (fun it =>
        (safeNumber it.price * safeNumber it.quantity, days, renderAmount it days)) ∧
    (summaryBlocks (invoiceEvents tableTop items days)).length = items.length ∧
    summaryAfterRow (invoiceEvents tableTop items days) = true := by
  refine ⟨?_, ?_, ?_⟩
  · simp [invoiceEvents, summaryBlocks, renderLoop_summaryBlocks]
  · simp [invoiceEvents, summaryBlocks, renderLoop_summaryBlocks]
  · simp [invoiceEvents, summaryAfterRow, renderLoop_summaryAfterRow]

/-- C9: rendering starts with a column header, every page break is
immediately followed by a column header redrawn at the top margin (so headers
appear on every page), and every row line is drawn only when its fixed
footprint fits above the bottom zone, with its breakdown sub-line placed
directly beneath it on the same page. -/
theorem C9_pagination (tableTop : ℚ) (items : List RawItem) (days : ℤ) :
    (invoiceEvents tableTop items days).head? = some (REvent.colHeader tableTop) ∧
    headersOk (invoiceEvents tableTop items days) = true ∧
    rowsOk (invoiceEvents tableTop items days) = true := by
  refine ⟨rfl, ?_, ?_⟩
  · simp [invoiceEvents, headersOk, renderLoop_headersOk]
  · simp [invoiceEvents, rowsOk, renderLoop_rowsOk]

/-- C6: for items stored consistently (line_total equal to price times
quantity, as every write path stores them) the rendered grand total is the sum
of the stored line amounts multiplied by the day count; in the end-to-end
example the persisted order total is 400 while the day count is 3 and the
rendered grand total is 1200, formatted as the two-decimal string 1200.00;
and the formatter always emits exactly two fraction digits. -/
theorem C6_grand_total :
    (∀ (tableTop : ℚ) (items : List RawItem) (days : ℤ),
       (∀ it ∈ items, safeNumber it.line_total = safeNumber it.price * safeNumber it.quantity) →
       renderGrand tableTop items days =
         (items.map (fun it => safeNumber it.line_total)).sum * (days : ℚ)) ∧
    (∃ o, findOrder exampleDB 1 = some o ∧ o.total = 400 ∧
       rentalDays o.rent_start o.rent_end = 3) ∧
    renderGrand 100 ((itemsOf exampleDB 1).map storedToRaw) 3 = 1200 ∧
    toFixed2 (renderGrand 100 ((itemsOf exampleDB 1).map storedToRaw) 3) = "1200.00" ∧
    (∀ q : ℚ, ∃ a : String, ∃ c1 c2 : Char, toFixed2 q = a ++ "." ++ String.mk [c1, c2]) := by
  have hg : renderGrand 100 ((itemsOf exampleDB 1).map storedToRaw) 3 = 1200 := by
    rw [exampleDB_eq]
    norm_num [renderGrand, renderLoop_grand, itemsOf, storedToRaw, renderAmount, jsOrNum,
      safeNumber, toNumber]
  refine ⟨?_, ?_, hg, ?_, ?_⟩
  · intro tableTop items days hc
    unfold renderGrand
    rw [renderLoop_grand, zero_add]
    have hmap : items.map (fun it => renderAmount it days) =
        items.map (fun it => safeNumber it.line_total * (days : ℚ)) := by
      apply List.map_congr_left
      intro it hit
      have hc2 := hc it hit
      by_cases h0 : safeNumber it.line_total = 0
      · unfold renderAmount jsOrNum
        rw [if_pos h0, ← hc2]
      · unfold renderAmount jsOrNum
        rw [if_neg h0]
    rw [hmap, List.sum_map_mul_right]
  · rw [exampleDB_eq]
    exact ⟨Order.mk 1 "inv-1" 1 19700 (some 19723) (some 19725) 400, rfl, rfl, by decide⟩
  · rw [hg]
    have hfl : ⌊(1200 : ℚ) * 100 + 1 / 2⌋ = 120000 := by
      rw [Int.floor_eq_iff]
      norm_num
    simp only [toFixed2, hfl]
    decide
  · intro q
    exact ⟨toString (⌊q * 100 + 1 / 2⌋ / 100),
      Char.ofNat (48 + (⌊q * 100 + 1 / 2⌋ % 100).toNat / 10),
      Char.ofNat (48 + (⌊q * 100 + 1 / 2⌋ % 100).toNat % 10), rfl⟩

/-- C6 witness: the grand-total rule applied to one concrete consistent
item. -/
theorem C6_witness :
    renderGrand 100 [RawItem.mk "Chair" (JSVal.num 50) (JSVal.num 4) (JSVal.num 200)] 3 =
      ([RawItem.mk "Chair" (JSVal.num 50) (JSVal.num 4) (JSVal.num 200)].map
        (fun it => safeNumber it.line_total)).sum * ((3 : ℤ) : ℚ) :=
  C6_grand_total.1 100 [RawItem.mk "Chair" (JSVal.num 50) (JSVal.num 4) (JSVal.num 200)] 3
    (by norm_num [safeNumber, toNumber])

/-- find? skips a prefix in which nothing matches. -/
theorem find?_append_of_none {α : Type} (p : α → Bool) (l1 l2 : List α)
    (h : l1.find? p = none) : (l1 ++ l2).find? p = l2.find? p := by
  rw [List.find?_append, h, Option.none_or]

/-- find? commutes with a map that does not change the tested predicate. -/
theorem find?_map_pres {α : Type} (f : α → α) (p : α → Bool) (l : List α)
    (h : ∀ a, p (f a) = p a) : (l.map f).find? p = Option.map f (l.find? p) := by
  rw [List.find?_map]
  have hpf : (p ∘ f) = p := funext h
  rw [hpf]

/-- Rows inserted for an order all carry that order id, so filtering by that
id returns them all. -/
theorem filter_insertItems (oid : ℕ) (items : List ReqItem) :
    (insertItems oid items).filter (fun it => decide (it.order_id = oid)) =
      insertItems oid items := by
  rw [List.filter_eq_self]
  intro a ha
  simp only [insertItems, List.mem_map] at ha
  obtain ⟨r, hr, rfl⟩ := ha
  simp

/-- The line_total sum of the freshly inserted rows equals the running total
accumulated by the insert loop. -/
theorem lineSum_insertItems (oid : ℕ) (items : List ReqItem) :
    lineSum (insertItems oid items) = reqTotal items := by
  have hfold : ∀ (l : List ReqItem) (a : ℚ),
      l.foldl (fun acc it => acc + lineAmount it.price it.quantity) a =
        a + (l.map (fun it => lineAmount it.price it.quantity)).sum := by
    intro l
    induction l with
    | nil => intro a; simp
    | cons x t ih => intro a; simp [ih, add_assoc]
  simp only [lineSum, insertItems, reqTotal, hfold, List.map_map, zero_add]
  rfl

/-- The patch applied by the update statement never changes the primary
key. -/
theorem applyOrderPatch_id (reqU : UpdateOrderReq) (tot : ℚ) (o : Order) :
    (applyOrderPatch reqU tot o).id = o.id := by
  unfold applyOrderPatch
  by_cases h : o.id = reqU.orderId <;> simp [h]

/-- Looking the order up after the update finds the patched first match. -/
theorem find?_orders_map_patch (reqU : UpdateOrderReq) (tot : ℚ) (l : List Order) :
    (l.map (applyOrderPatch reqU tot)).find? (fun o => decide (o.id = reqU.orderId)) =
      Option.map (applyOrderPatch reqU tot) (l.find? (fun o => decide (o.id = reqU.orderId))) := by
  apply find?_map_pres
  intro a
  rw [applyOrderPatch_id]

/-- Inversion of a successful updateOrder call: the request passed
validation, the order was found, and the committed store is the one with the
items swapped and the order row patched. -/
theorem updateOrder_ok (reqU : UpdateOrderReq) (db : DB) (t : ℚ) (db2 : DB)
    (h : updateOrder reqU db = (Res.ok t, db2)) :
    reqU.orderId ≠ 0 ∧ reqU.items ≠ [] ∧ t = reqTotal reqU.items ∧
    ∃ o0, findOrder db reqU.orderId = some o0 ∧
      db2 = DB.mk db.customers (db.orders.map (applyOrderPatch reqU (reqTotal reqU.items)))
        (db.order_items.filter (fun it => decide (¬ it.order_id = reqU.orderId)) ++
          insertItems reqU.orderId reqU.items) db.nextCustomerId db.nextOrderId := by
  by_cases h1 : reqU.orderId = 0
  · simp [updateOrder, h1] at h
  by_cases h2 : reqU.items = []
  · simp [updateOrder, h1, h2] at h
  cases hf : findOrder db reqU.orderId with
  | none => simp [updateOrder, h1, h2, hf] at h
  | some o0 =>
    simp only [updateOrder, if_neg h1, if_neg h2, hf] at h
    rw [Prod.mk.injEq, Res.ok.injEq] at h
    exact ⟨h1, h2, h.1.symm, o0, rfl, h.2.symm⟩

/-- Inversion of a successful newCustomer call. -/
theorem newCustomer_ok (req : NewCustomerReq) (today : ℤ) (uuid : String) (db : DB)
    (cid oid : ℕ) (db2 : DB)
    (h : newCustomer req today uuid db = (Res.ok (cid, oid), db2)) :
    cid = db.nextCustomerId ∧ oid = db.nextOrderId ∧
    db2 = DB.mk
      (db.customers ++
        [Customer.mk db.nextCustomerId req.name req.phone (orElseNull req.alt_phone)
          req.address "ACTIVE"])
      (db.orders ++
        [Order.mk db.nextOrderId uuid db.nextCustomerId (req.order_date.getD today)
          req.rent_start req.rent_end (reqTotal req.items)])
      (db.order_items ++ insertItems db.nextOrderId req.items)
      (db.nextCustomerId + 1) (db.nextOrderId + 1) := by
  by_cases h1 : req.name = "" ∨ req.phone = "" ∨ req.address = ""
  · simp [newCustomer, h1] at h
  by_cases h2 : req.items = []
  · simp [newCustomer, h1, h2] at h
  simp only [newCustomer, if_neg h1, if_neg h2] at h
  rw [Prod.mk.injEq, Res.ok.injEq, Prod.mk.injEq] at h
  exact ⟨h.1.1.symm, h.1.2.symm, h.2.symm⟩

/-- Inversion of a successful generateBill call: the order side of the store
does not depend on which customer branch was taken. -/
theorem generateBill_ok (req : GenerateBillReq) (today : ℤ) (uuid : String) (db : DB)
    (oid : ℕ) (inv : String) (db2 : DB)
    (h : generateBill req today uuid db = (Res.ok (oid, inv), db2)) :
    oid = db.nextOrderId ∧
    db2.orders = db.orders ++
      [Order.mk db.nextOrderId uuid
        (match findByPhone db req.phone with
         | some c => c.id
         | none => db.nextCustomerId)
        today req.rent_start req.rent_end (reqTotal req.items)] ∧
    db2.order_items = db.order_items ++ insertItems db.nextOrderId req.items := by
  by_cases h1 : req.name = "" ∨ req.phone = "" ∨ req.address = ""
  · simp [generateBill, h1] at h
  by_cases h2 : req.items = []
  · simp [generateBill, h1, h2] at h
  simp only [generateBill, if_neg h1, if_neg h2] at h
  rw [Prod.mk.injEq, Res.ok.injEq, Prod.mk.injEq] at h
  obtain ⟨⟨hoid, hinv⟩, hdb⟩ := h
  subst hdb
  exact ⟨hoid.symm, rfl, rfl⟩

/-- The committed items of a fresh order are exactly the inserted rows when
no pre-existing row already used the new order id. -/
theorem itemsOf_fresh (old : List OrderItem) (oid : ℕ) (items : List ReqItem)
    (hIt : ∀ it ∈ old, it.order_id ≠ oid) :
    (old ++ insertItems oid items).filter (fun it => decide (it.order_id = oid)) =
      insertItems oid items := by
  rw [List.filter_append, filter_insertItems]
  have hnil : old.filter (fun it => decide (it.order_id = oid)) = [] := by
    rw [List.filter_eq_nil_iff]
    intro a ha
    simp [hIt a ha]
  rw [hnil, List.nil_append]

/-- The end-to-end example request evaluated in closed form. -/
theorem newCustomer_example_eq :
    newCustomer chairTableReq 19700 "inv-1" emptyDB =
      (Res.ok (1, 1), DB.mk [Customer.mk 1 "Asha" "9916067960" none "Shimoga" "ACTIVE"]
        [Order.mk 1 "inv-1" 1 19700 (some 19723) (some 19725) 400]
        [OrderItem.mk 1 "Chair" 50 4 200, OrderItem.mk 1 "Table" 200 1 200] 2 2) := by
  simp only [newCustomer, chairTableReq, chairTableItems, emptyDB]
  rw [if_neg (by decide), if_neg (by decide)]
  norm_num [insertItems, reqTotal, lineAmount, safeNumber, toNumber, orElseNull]

/-- C7: the two creation entry points resolve customers differently: the
new-customer path inserts a fresh customer row unconditionally, whatever rows
the store already holds (in particular even when the phone number matches an
existing row), while the generate-bill path updates name, alternate phone and
address of the first row with an exact phone match in place, and inserts a
fresh row only when no row matches. -/
theorem C7_customer_resolution
    (reqN : NewCustomerReq) (reqB : GenerateBillReq) (today : ℤ) (uuid : String) (db : DB)
    (hN1 : reqN.name ≠ "") (hN2 : reqN.phone ≠ "") (hN3 : reqN.address ≠ "")
    (hN4 : reqN.items ≠ [])
    (hB1 : reqB.name ≠ "") (hB2 : reqB.phone ≠ "") (hB3 : reqB.address ≠ "")
    (hB4 : reqB.items ≠ []) :
    (newCustomer reqN today uuid db).2.customers =
      db.customers ++
        [Customer.mk db.nextCustomerId reqN.name reqN.phone (orElseNull reqN.alt_phone)
          reqN.address "ACTIVE"] ∧
    (∀ c, findByPhone db reqB.phone = some c →
       (generateBill reqB today uuid db).2.customers =
         db.customers.map (fun x : Customer =>
           if x.id = c.id then
             Customer.mk x.id reqB.name x.phone (orElseNull reqB.alt_phone) reqB.address
               x.rent_status
           else x)) ∧
    (findByPhone db reqB.phone = none →
       (generateBill reqB today uuid db).2.customers =
         db.customers ++
           [Customer.mk db.nextCustomerId reqB.name reqB.phone (orElseNull reqB.alt_phone)
             reqB.address "ACTIVE"]) := by
  refine ⟨?_, ?_, ?_⟩
  · simp only [newCustomer]
    rw [if_neg (by simp [hN1, hN2, hN3]), if_neg hN4]
  · intro c hc
    simp only [generateBill, hc]
    rw [if_neg (by simp [hB1, hB2, hB3]), if_neg hB4]
  · intro hc
    simp only [generateBill, hc]
    rw [if_neg (by simp [hB1, hB2, hB3]), if_neg hB4]

/-- C7 witness: on the example store, whose only customer already has the
requested phone number, the new-customer path appends a second row while the
generate-bill path updates the matching row in place. -/
theorem C7_witness :
    (newCustomer chairTableReq 19700 "inv-2" exampleDB).2.customers =
      exampleDB.customers ++
        [Customer.mk exampleDB.nextCustomerId chairTableReq.name chairTableReq.phone
          (orElseNull chairTableReq.alt_phone) chairTableReq.address "ACTIVE"] ∧
    (generateBill billReqW 19700 "inv-2" exampleDB).2.customers =
      exampleDB.customers.map (fun x : Customer =>
        if x.id = 1 then
          Customer.mk x.id billReqW.name x.phone (orElseNull billReqW.alt_phone) billReqW.address
            x.rent_status
        else x) := by
  have h := C7_customer_resolution chairTableReq billReqW 19700 "inv-2" exampleDB
    (by decide) (by decide) (by decide) (by decide) (by decide) (by decide) (by decide)
    (by decide)
  exact ⟨h.1, h.2.1 (Customer.mk 1 "Asha" "9916067960" none "Shimoga" "ACTIVE")
    (by rw [exampleDB_eq]; rfl)⟩

/-- C1: after a successful createOrder through either entry point and after a
successful replaceOrderItems, the rows stored for the order by that same
operation carry the coerced price, the coerced quantity and their product as
line_total (no rental-day factor), and the total persisted on the order row
equals the sum of those stored line_total values. -/
theorem C1_total_invariant
    (reqN : NewCustomerReq) (reqB : GenerateBillReq) (reqU : UpdateOrderReq)
    (today : ℤ) (uuid : String) (db : DB)
    (hIt : ∀ it ∈ db.order_items, it.order_id ≠ db.nextOrderId)
    (hOrd : ∀ o ∈ db.orders, o.id ≠ db.nextOrderId) :
    (∀ cid oid db2, newCustomer reqN today uuid db = (Res.ok (cid, oid), db2) →
       itemsOf db2 oid = reqN.items.map (fun r =>
         OrderItem.mk oid r.product (safeNumber r.price) (safeNumber r.quantity)
           (safeNumber r.price * safeNumber r.quantity)) ∧
       ∃ o, findOrder db2 oid = some o ∧ o.total = lineSum (itemsOf db2 oid)) ∧
    (∀ oid inv db2, generateBill reqB today uuid db = (Res.ok (oid, inv), db2) →
       itemsOf db2 oid = reqB.items.map (fun r =>
         OrderItem.mk oid r.product (safeNumber r.price) (safeNumber r.quantity)
           (safeNumber r.price * safeNumber r.quantity)) ∧
       ∃ o, findOrder db2 oid = some o ∧ o.total = lineSum (itemsOf db2 oid)) ∧
    (∀ t db2, updateOrder reqU db = (Res.ok t, db2) →
       itemsOf db2 reqU.orderId = reqU.items.map (fun r =>
         OrderItem.mk reqU.orderId r.product (safeNumber r.price) (safeNumber r.quantity)
           (safeNumber r.price * safeNumber r.quantity)) ∧
       ∃ o, findOrder db2 reqU.orderId = some o ∧
         o.total = lineSum (itemsOf db2 reqU.orderId) ∧ o.total = t) := by
  refine ⟨?_, ?_, ?_⟩
  · intro cid oid db2 h
    obtain ⟨hcid, hoid, hdb⟩ := newCustomer_ok reqN today uuid db cid oid db2 h
    subst hoid
    subst hdb
    have hitems : itemsOf (DB.mk
        (db.customers ++
          [Customer.mk db.nextCustomerId reqN.name reqN.phone (orElseNull reqN.alt_phone)
            reqN.address "ACTIVE"])
        (db.orders ++
          [Order.mk db.nextOrderId uuid db.nextCustomerId (reqN.order_date.getD today)
            reqN.rent_start reqN.rent_end (reqTotal reqN.items)])
        (db.order_items ++ insertItems db.nextOrderId reqN.items)
        (db.nextCustomerId + 1) (db.nextOrderId + 1)) db.nextOrderId =
        insertItems db.nextOrderId reqN.items :=
      itemsOf_fresh db.order_items db.nextOrderId reqN.items hIt
    refine ⟨hitems.trans rfl,
      Order.mk db.nextOrderId uuid db.nextCustomerId (reqN.order_date.getD today)
        reqN.rent_start reqN.rent_end (reqTotal reqN.items), ?_, ?_⟩
    · simp only [findOrder]
      rw [find?_append_of_none]
      · exact List.find?_cons_of_pos _ (by simp)
      · rw [List.find?_eq_none]
        intro o ho
        simp [hOrd o ho]
    · rw [hitems, lineSum_insertItems]
  · intro oid inv db2 h
    obtain ⟨hoid, hords, hits⟩ := generateBill_ok reqB today uuid db oid inv db2 h
    subst hoid
    have hitems : itemsOf db2 db.nextOrderId = insertItems db.nextOrderId reqB.items := by
      simp only [itemsOf, hits]
      exact itemsOf_fresh db.order_items db.nextOrderId reqB.items hIt
    refine ⟨hitems.trans rfl,
      Order.mk db.nextOrderId uuid
        (match findByPhone db reqB.phone with
         | some c => c.id
         | none => db.nextCustomerId)
        today reqB.rent_start reqB.rent_end (reqTotal reqB.items), ?_, ?_⟩
    · simp only [findOrder, hords]
      rw [find?_append_of_none]
      · exact List.find?_cons_of_pos _ (by simp)
      · rw [List.find?_eq_none]
        intro o ho
        simp [hOrd o ho]
    · rw [hitems, lineSum_insertItems]
  · intro t db2 h
    obtain ⟨h1, h2, ht, o0, hf0, hdb⟩ := updateOrder_ok reqU db t db2 h
    subst hdb
    subst ht
    have hff : db.orders.find? (fun o => decide (o.id = reqU.orderId)) = some o0 := hf0
    have hid0 : o0.id = reqU.orderId := by
      have hp := List.find?_some hff
      simpa using hp
    have hnil : (db.order_items.filter
        (fun it => decide (¬ it.order_id = reqU.orderId))).filter
        (fun it => decide (it.order_id = reqU.orderId)) = [] := by
      rw [List.filter_eq_nil_iff]
      intro a ha
      rw [List.mem_filter] at ha
      have ha2 := ha.2
      simp at ha2 ⊢
      exact ha2
    have hitems : itemsOf (DB.mk db.customers
        (db.orders.map (applyOrderPatch reqU (reqTotal reqU.items)))
        (db.order_items.filter (fun it => decide (¬ it.order_id = reqU.orderId)) ++
          insertItems reqU.orderId reqU.items) db.nextCustomerId db.nextOrderId)
        reqU.orderId = insertItems reqU.orderId reqU.items := by
      simp only [itemsOf, List.filter_append, filter_insertItems, hnil, List.nil_append]
    refine ⟨hitems.trans rfl, applyOrderPatch reqU (reqTotal reqU.items) o0, ?_, ?_, ?_⟩
    · simp only [findOrder]
      rw [find?_orders_map_patch, hff]
      rfl
    · rw [hitems, lineSum_insertItems]
      simp only [applyOrderPatch, if_pos hid0]
    · simp only [applyOrderPatch, if_pos hid0]

/-- C1 witness: the invariant checked on the committed end-to-end example. -/
theorem C1_witness :
    itemsOf exampleDB 1 = chairTableReq.items.map (fun r =>
      OrderItem.mk 1 r.product (safeNumber r.price) (safeNumber r.quantity)
        (safeNumber r.price * safeNumber r.quantity)) ∧
    ∃ o, findOrder exampleDB 1 = some o ∧ o.total = lineSum (itemsOf exampleDB 1) :=
  (C1_total_invariant chairTableReq billReqW updReqW 19700 "inv-1" emptyDB
    (by intro it hit; simp [emptyDB] at hit) (by intro o ho; simp [emptyDB] at ho)).1
    1 1 exampleDB (by rw [newCustomer_example_eq, exampleDB_eq])

/-- C4 counterexample: with an empty item list the validation failure is
returned before the existence lookup, so a call whose orderId does not
resolve yields the validation failure rather than the not-found failure (the
store is still left unchanged). -/
theorem C4_counterexample :
    findOrder emptyDB 1 = none ∧
    updateOrder (UpdateOrderReq.mk 1 none none none []) emptyDB =
      (Res.err "No items provided", emptyDB) ∧
    (Res.err "No items provided" : Res ℚ) ≠ Res.err "Order not found" :=
  ⟨rfl, rfl, by decide⟩

/-- C4 amended: a replaceOrderItems call that passes request validation
(nonzero orderId, non-empty items) and whose orderId does not resolve to an
existing order returns the not-found failure and leaves the store unchanged;
calls rejected by validation also leave the store unchanged but report the
validation failure instead. -/
theorem C4_notfound_amended (reqU : UpdateOrderReq) (db : DB) :
    (reqU.orderId ≠ 0 → reqU.items ≠ [] → findOrder db reqU.orderId = none →
       updateOrder reqU db = (Res.err "Order not found", db)) ∧
    (∀ msg db2, updateOrder reqU db = (Res.err msg, db2) → db2 = db) := by
  constructor
  · intro h1 h2 hf
    simp [updateOrder, h1, h2, hf]
  · intro msg db2 h
    by_cases h1 : reqU.orderId = 0
    · simp [updateOrder, h1] at h
      exact h.2.symm
    by_cases h2 : reqU.items = []
    · simp [updateOrder, h1, h2] at h
      exact h.2.symm
    cases hf : findOrder db reqU.orderId with
    | none =>
      simp [updateOrder, h1, h2, hf] at h
      exact h.2.symm
    | some o0 =>
      simp [updateOrder, h1, h2, hf] at h

/-- C4 witness: a validated request against an unresolvable order id returns
the not-found failure on the unchanged empty store. -/
theorem C4_witness :
    updateOrder (UpdateOrderReq.mk 1 none none none
      [ReqItem.mk "x" (JSVal.num 1) (JSVal.num 1)]) emptyDB =
      (Res.err "Order not found", emptyDB) :=
  (C4_notfound_amended
    (UpdateOrderReq.mk 1 none none none [ReqItem.mk "x" (JSVal.num 1) (JSVal.num 1)])
    emptyDB).1 (by decide) (by decide) rfl

/-- C5: a successful replaceOrderItems rewrites the order total
unconditionally, but overwrites order_date, rent_start and rent_end only when
the corresponding request field is supplied; an omitted field keeps the value
previously stored on the order row, and the identity fields of the row are
untouched. -/
theorem C5_coalesce (reqU : UpdateOrderReq) (db : DB) (t : ℚ) (db2 : DB) (o0 : Order)
    (h : updateOrder reqU db = (Res.ok t, db2))
    (hf : findOrder db reqU.orderId = some o0) :
    ∃ o2, findOrder db2 reqU.orderId = some o2 ∧
      o2.total = t ∧ t = reqTotal reqU.items ∧
      (reqU.order_date = none → o2.order_date = o0.order_date) ∧
      (∀ d, reqU.order_date = some d → o2.order_date = d) ∧
      (reqU.rent_start = none → o2.rent_start = o0.rent_start) ∧
      (∀ d, reqU.rent_start = some d → o2.rent_start = some d) ∧
      (reqU.rent_end = none → o2.rent_end = o0.rent_end) ∧
      (∀ d, reqU.rent_end = some d → o2.rent_end = some d) ∧
      o2.id = o0.id ∧ o2.invoice_no = o0.invoice_no ∧ o2.customer_id = o0.customer_id := by
  obtain ⟨h1, h2, ht, o1, hf1, hdb⟩ := updateOrder_ok reqU db t db2 h
  rw [hf] at hf1
  injection hf1 with ho
  subst ho
  subst hdb
  subst ht
  have hff : db.orders.find? (fun o => decide (o.id = reqU.orderId)) = some o0 := hf
  have hid0 : o0.id = reqU.orderId := by
    have hp := List.find?_some hff
    simpa using hp
  refine ⟨applyOrderPatch reqU (reqTotal reqU.items) o0, ?_, ?_, rfl, ?_, ?_, ?_, ?_, ?_, ?_,
    ?_, ?_, ?_⟩
  · simp only [findOrder]
    rw [find?_orders_map_patch, hff]
    rfl
  · simp only [applyOrderPatch, if_pos hid0]
  · intro hn
    simp only [applyOrderPatch, if_pos hid0, coalesceDate, hn]
  · intro d hd
    simp only [applyOrderPatch, if_pos hid0, coalesceDate, hd]
  · intro hn
    simp only [applyOrderPatch, if_pos hid0, coalesceOpt, hn]
  · intro d hd
    simp only [applyOrderPatch, if_pos hid0, coalesceOpt, hd]
  · intro hn
    simp only [applyOrderPatch, if_pos hid0, coalesceOpt, hn]
  · intro d hd
    simp only [applyOrderPatch, if_pos hid0, coalesceOpt, hd]
  · simp only [applyOrderPatch, if_pos hid0]
  · simp only [applyOrderPatch, if_pos hid0]
  · simp only [applyOrderPatch, if_pos hid0]

/-- The example update evaluated in closed form: only rent_end and the items
change, the other date fields and the rest of the store stay as they were. -/
theorem updatedDB_eq :
    updateOrder updReqW exampleDB =
      (Res.ok 20, DB.mk [Customer.mk 1 "Asha" "9916067960" none "Shimoga" "ACTIVE"]
        [Order.mk 1 "inv-1" 1 19700 (some 19723) (some 19800) 20]
        [OrderItem.mk 1 "Sofa" 10 2 20] 2 2) := by
  rw [exampleDB_eq]
  simp only [updateOrder, updReqW]
  rw [if_neg (by decide), if_neg (by decide)]
  have hf : findOrder (DB.mk [Customer.mk 1 "Asha" "9916067960" none "Shimoga" "ACTIVE"]
      [Order.mk 1 "inv-1" 1 19700 (some 19723) (some 19725) 400]
      [OrderItem.mk 1 "Chair" 50 4 200, OrderItem.mk 1 "Table" 200 1 200] 2 2) 1 =
      some (Order.mk 1 "inv-1" 1 19700 (some 19723) (some 19725) 400) := rfl
  rw [hf]
  norm_num [applyOrderPatch, coalesceDate, coalesceOpt, insertItems, reqTotal, lineAmount,
    safeNumber, toNumber]

/-- C5 witness: supplying only rent_end on the example order changes rent_end
and the total, and no other date field. -/
theorem C5_witness :
    ∃ o2, findOrder (DB.mk [Customer.mk 1 "Asha" "9916067960" none "Shimoga" "ACTIVE"]
        [Order.mk 1 "inv-1" 1 19700 (some 19723) (some 19800) 20]
        [OrderItem.mk 1 "Sofa" 10 2 20] 2 2) updReqW.orderId = some o2 ∧
      o2.total = 20 ∧ (20 : ℚ) = reqTotal updReqW.items ∧
      (updReqW.order_date = none → o2.order_date = 19700) ∧
      (∀ d, updReqW.order_date = some d → o2.order_date = d) ∧
      (updReqW.rent_start = none → o2.rent_start = some 19723) ∧
      (∀ d, updReqW.rent_start = some d → o2.rent_start = some d) ∧
      (updReqW.rent_end = none → o2.rent_end = some 19725) ∧
      (∀ d, updReqW.rent_end = some d → o2.rent_end = some d) ∧
      o2.id = 1 ∧ o2.invoice_no = "inv-1" ∧ o2.customer_id = 1 :=
  C5_coalesce updReqW exampleDB 20
    (DB.mk [Customer.mk 1 "Asha" "9916067960" none "Shimoga" "ACTIVE"]
      [Order.mk 1 "inv-1" 1 19700 (some 19723) (some 19800) 20]
      [OrderItem.mk 1 "Sofa" 10 2 20] 2 2)
    (Order.mk 1 "inv-1" 1 19700 (some 19723) (some 19725) 400)
    updatedDB_eq (by rw [exampleDB_eq]; rfl)

end Srv
